import Mathlib

/-
  Verification of the host performance gate and worker dispatch of
  src/cli/src/command.rs (Primal-PRM/polka_fork).

  The embedding models the effectful Rust code by explicit state passing:
  the filesystem is an association list from paths to file contents, the
  external pipeline stages (sp_maybe_compressed_blob::decompress,
  polkadot_node_core_pvf::prevalidate / prepare) and the wall clock are an
  environment of oracles, and log output is an explicit list of messages.
  Durations are modelled in milliseconds; the Rust Debug rendering of a
  Duration is modelled by formatDuration. The release build configuration
  (the one in which host_perf_check and the HostPerfCheck subcommand are
  compiled in) is the configuration modelled; the compile time target_os
  test of the worker branches is modelled by the isAndroid flag of the
  run environment. The current_exe computation of host_perf_check may
  fail, so its outcome (the executable directory after the file name is
  popped) is an Option in the environment: the unwrap_or_default fallback
  of the source degrades the sentinel path to the bare relative file name
  .perf_check_passed, which the operating system resolves against the
  current working directory — resolvePath models that resolution, and the
  filesystem is keyed by resolved absolute paths.
-/

namespace PolkaFork

/-- Filesystem model: an association list from paths to file contents. -/
abbrev FileSystem := List (String × String)

/-- Lookup of the content of a path. -/
def fsLookup : FileSystem → String → Option String
  | [], _ => none
  | (q, c) :: rest, p => if q = p then some c else fsLookup rest p

/-- Existence test of a path, modelling Path::exists. -/
def fsExists (fs : FileSystem) (p : String) : Bool :=
  (fsLookup fs p).isSome

/-- Creation of an empty file, modelling
OpenOptions create(true) write(true) open(path) on a path that does not
exist yet: a zero byte file appears at the path. -/
def fsTouch (fs : FileSystem) (p : String) : FileSystem :=
  (p, "") :: fs

/-- The Error enum of command.rs, restricted to the variants the modelled
branches construct: Error::Other and the converted sc_cli input error of
the worker refusal branches. -/
inductive Error where
  | substrateCli (msg : String)
  | other (msg : String)
deriving DecidableEq, Repr

/-- PERF_CHECK_TIME_LIMIT: Duration::from_secs(20), in milliseconds. -/
def PERF_CHECK_TIME_LIMIT : Nat := 20000

/-- CODE_SIZE_LIMIT: 1024usize.pow(3). -/
def CODE_SIZE_LIMIT : Nat := 1024 ^ 3

/-- CHECK_PASSED_FILE_NAME: the dot file beside the executable. -/
def CHECK_PASSED_FILE_NAME : String := ".perf_check_passed"

/-- The check_passed_path computation of host_perf_check: the result of
current_exe, with the file name popped, joined with
CHECK_PASSED_FILE_NAME; when current_exe fails, unwrap_or_default yields
the empty path and the join degrades to the bare relative file name. -/
def checkPassedPath : Option String → String
  | some exeDir => exeDir ++ "/" ++ CHECK_PASSED_FILE_NAME
  | none => CHECK_PASSED_FILE_NAME

/-- Whether a path is absolute, that is, has a leading slash. -/
def isAbsolutePath (p : String) : Bool :=
  match p.data with
  | [] => false
  | c :: _ => c == '/'

/-- Resolution of a path by the operating system against the current
working directory, as Path::exists and OpenOptions::open perform it:
an absolute path is used as it is, a relative one (such as the degraded
sentinel path) resolves under the cwd. -/
def resolvePath (cwd p : String) : String :=
  if isAbsolutePath p then p else cwd ++ "/" ++ p

/-- Rendering of a Duration measured in milliseconds, modelling the Rust
Debug format used in the log and error messages: whole seconds render as
"20s", fractional ones as "20.500s". -/
def formatDuration (millis : Nat) : String :=
  if millis % 1000 = 0 then toString (millis / 1000) ++ "s"
  else toString (millis / 1000) ++ "." ++ toString (millis % 1000) ++ "s"

/-- Environment of host_perf_check: the outcome of current_exe (none when
it fails, otherwise the executable directory after popping the file
name), the current working directory, the filesystem, the embedded
WASM_CODE bytes, the three external pipeline stages as oracles, the wall
clock elapsed measurement, and whether the best effort sentinel write
would succeed. -/
structure PerfCheckEnv where
  currentExeDir : Option String
  cwd : String
  fs : FileSystem
  wasmCode : List Nat
  decompress : List Nat → Nat → Except String (List Nat)
  prevalidate : List Nat → Except String (List Nat)
  prepare : List Nat → Except String (List Nat)
  elapsedMillis : Nat
  sentinelWriteSucceeds : Bool

/-- Observable outcome of host_perf_check: the returned Result, the
filesystem afterwards, the log lines emitted, and instrumentation counts
of how often each pipeline stage was invoked. -/
structure PerfCheckOutcome where
  result : Except Error Unit
  fs : FileSystem
  logs : List String
  decompressCalls : Nat
  prevalidateCalls : Nat
  prepareCalls : Nat
deriving Repr

/-- The absolute filesystem path the gate consults: check_passed_path as
the code computes it, resolved by the operating system against the
current working directory when current_exe failed and the path is
relative. -/
def sentinelPath (env : PerfCheckEnv) : String :=
  resolvePath env.cwd (checkPassedPath env.currentExeDir)

/-- Body of host_perf_check after the check_passed_path computation
(mirroring the let binding of the source): checks for the sentinel at
the given path and short circuits when present; otherwise runs
decompress, prevalidate, prepare on WASM_CODE, measures elapsed wall
clock time, fails if a stage fails or if elapsed exceeds
PERF_CHECK_TIME_LIMIT, and on an in time success touches the sentinel,
ignoring the result of that write. -/
def hostPerfCheckAt (checkPassedP : String) (env : PerfCheckEnv) : PerfCheckOutcome :=
  if fsExists env.fs checkPassedP then
    { result := .ok (), fs := env.fs,
      logs := ["Performance check skipped: already passed"],
      decompressCalls := 0, prevalidateCalls := 0, prepareCalls := 0 }
  else
    match env.decompress env.wasmCode CODE_SIZE_LIMIT with
    | .error err =>
        { result := .error (.other ("Failed to decompress test wasm code: " ++ err)),
          fs := env.fs, logs := ["Running the performance check..."],
          decompressCalls := 1, prevalidateCalls := 0, prepareCalls := 0 }
    | .ok code =>
      match env.prevalidate code with
      | .error err =>
          { result := .error
              (.other ("Failed to create runtime blob from the decompressed code: " ++ err)),
            fs := env.fs, logs := ["Running the performance check..."],
            decompressCalls := 1, prevalidateCalls := 1, prepareCalls := 0 }
      | .ok blob =>
        match env.prepare blob with
        | .error err =>
            { result := .error (.other ("Failed to precompile test wasm code: " ++ err)),
              fs := env.fs, logs := ["Running the performance check..."],
              decompressCalls := 1, prevalidateCalls := 1, prepareCalls := 1 }
        | .ok _ =>
          if env.elapsedMillis ≤ PERF_CHECK_TIME_LIMIT then
            { result := .ok (),
              fs := if env.sentinelWriteSucceeds then
                      fsTouch env.fs checkPassedP
                    else env.fs,
              logs := ["Running the performance check...",
                       "Performance check passed, elapsed: " ++
                         formatDuration env.elapsedMillis],
              decompressCalls := 1, prevalidateCalls := 1, prepareCalls := 1 }
          else
            { result := .error (.other
                ("Performance check not passed: exceeded the " ++
                  formatDuration PERF_CHECK_TIME_LIMIT ++
                  " time limit, elapsed: " ++ formatDuration env.elapsedMillis)),
              fs := env.fs,
              logs := ["Running the performance check..."],
              decompressCalls := 1, prevalidateCalls := 1, prepareCalls := 1 }

/-- host_perf_check of command.rs: computes check_passed_path (resolved
against the cwd when relative) and runs the body on it. -/
def hostPerfCheck (env : PerfCheckEnv) : PerfCheckOutcome :=
  hostPerfCheckAt (sentinelPath env) env

/-- Whether the three stage pipeline of host_perf_check succeeds on the
environment, following the exact dataflow of the code. -/
def stagesOk (env : PerfCheckEnv) : Bool :=
  match env.decompress env.wasmCode CODE_SIZE_LIMIT with
  | .error _ => false
  | .ok code =>
    match env.prevalidate code with
    | .error _ => false
    | .ok blob =>
      match env.prepare blob with
      | .error _ => false
      | .ok _ => true

/-- The two worker modes of the PVF worker subcommands. -/
inductive WorkerMode where
  | prepare
  | execute
deriving DecidableEq, Repr

/-- The refusal message of the android branch of each worker subcommand. -/
def workerRefusalMessage : WorkerMode → String
  | .prepare => "PVF preparation workers are not supported under this platform"
  | .execute => "PVF execution workers are not supported under this platform"

/-- The Subcommand enum as dispatched by run. Subcommands that route
directly to external sc_cli or service collaborators carry no payload
here; the worker subcommands carry their socket path. -/
inductive Subcommand where
  | buildSpec
  | checkBlock
  | exportBlocks
  | exportState
  | importBlocks
  | purgeChain
  | revert
  | pvfPrepareWorker (socketPath : String)
  | pvfExecuteWorker (socketPath : String)
  | benchmark
  | hostPerfCheck
  | key
  | tryRuntime

/-- Observable events of a run dispatch: logger initialization, a worker
entrypoint invocation (the entrypoint is what binds and serves the
endpoint), the build and start of the full node service
(service::build_full via run_node_inner), the host performance gate
being run, and dispatch to an out of scope external subcommand handler. -/
inductive Event where
  | loggerInit
  | workerEntrypoint (mode : WorkerMode) (socketPath : String)
  | nodeServiceBuilt
  | hostPerfGateRun
  | externalCommand
deriving DecidableEq, Repr

/-- Environment of run: the compile time platform flag of the worker
branches and the environment of the performance gate. -/
structure RunEnv where
  isAndroid : Bool
  perf : PerfCheckEnv

/-- The run dispatch of command.rs, restricted to the observations the
verified claims are about. No subcommand runs run_node_inner, which
builds and starts the full node service. The PVF worker branches
initialize a logger, then refuse on android before touching the
entrypoint, and otherwise invoke the worker entrypoint with the socket
path. The HostPerfCheck branch initializes a logger and runs
host_perf_check to completion before returning. The remaining
subcommands forward to external collaborators. -/
def run (sub : Option Subcommand) (env : RunEnv) : Except Error Unit × List Event :=
  match sub with
  | none => (.ok (), [.nodeServiceBuilt])
  | some (.pvfPrepareWorker socketPath) =>
    if env.isAndroid then
      (.error (.substrateCli (workerRefusalMessage .prepare)), [.loggerInit])
    else
      (.ok (), [.loggerInit, .workerEntrypoint .prepare socketPath])
  | some (.pvfExecuteWorker socketPath) =>
    if env.isAndroid then
      (.error (.substrateCli (workerRefusalMessage .execute)), [.loggerInit])
    else
      (.ok (), [.loggerInit, .workerEntrypoint .execute socketPath])
  | some .hostPerfCheck =>
    ((hostPerfCheck env.perf).result, [.loggerInit, .hostPerfGateRun])
  | some _ => (.ok (), [.externalCommand])

/-- Whether the character list pre is a leading segment of the list s. -/
def charsLead : List Char → List Char → Bool
  | [], _ => true
  | _ :: _, [] => false
  | a :: as, b :: bs => a == b && charsLead as bs

/-- Whether the character list needle occurs contiguously inside hay. -/
def charsWithin (needle hay : List Char) : Bool :=
  match hay with
  | [] => charsLead needle []
  | c :: t => charsLead needle (c :: t) || charsWithin needle t

/-- Whether the string pre is a leading segment of the string s. -/
def strLeads (pre s : String) : Bool :=
  charsLead pre.data s.data

/-- Whether the string needle occurs contiguously inside the string hay. -/
def strWithin (needle hay : String) : Bool :=
  charsWithin needle.data hay.data

/-- A sample environment on which the whole pipeline succeeds in 5
seconds and the sentinel write would succeed. -/
def envBase : PerfCheckEnv where
  currentExeDir := some "/opt/polkadot"
  cwd := "/home/operator"
  fs := []
  wasmCode := [0, 97, 115, 109]
  decompress := fun code _ => .ok code
  prevalidate := fun code => .ok code
  prepare := fun code => .ok code
  elapsedMillis := 5000
  sentinelWriteSucceeds := true

/-- Variant of envBase in which the sentinel file is already present. -/
def envPassed : PerfCheckEnv :=
  { envBase with fs := [("/opt/polkadot/.perf_check_passed", "")] }

/-- Variant of envBase in which decompression fails. -/
def envFail : PerfCheckEnv :=
  { envBase with decompress := fun _ _ => .error "corrupt stream" }

/-- Variant of envBase measuring 25 seconds, beyond the 20 second limit. -/
def env25 : PerfCheckEnv :=
  { envBase with elapsedMillis := 25000 }

/-- Variant of envBase measuring exactly the 20 second limit. -/
def env20 : PerfCheckEnv :=
  { envBase with elapsedMillis := 20000 }

/-- Variant of envBase in which writing the sentinel file fails. -/
def envWF : PerfCheckEnv :=
  { envBase with sentinelWriteSucceeds := false }

/-- Variant of envBase in which current_exe fails, so the sentinel path
degrades to the relative file name; the filesystem holds a sentinel under
the current working directory of envBase. -/
def envNoExe : PerfCheckEnv :=
  { envBase with currentExeDir := none,
                 fs := [("/home/operator/.perf_check_passed", "")] }

/-- A filesystem holding the sentinel path with nonempty content. -/
def fsC1 : FileSystem := [("/opt/polkadot/.perf_check_passed", "cached")]

/-- A filesystem holding the sentinel path with empty content. -/
def fsC2 : FileSystem := [("/opt/polkadot/.perf_check_passed", "")]

/-- A run environment on the android platform whose performance gate
environment would fail. -/
def runEnvAndroid : RunEnv where
  isAndroid := true
  perf := envFail

/-- A run environment on a supported platform whose performance gate
environment would fail, showing what normal startup does on such a host. -/
def runEnvSlowHost : RunEnv where
  isAndroid := false
  perf := envFail

/-! String containment helper lemmas. -/

theorem charsLead_refl : ∀ l : List Char, charsLead l l = true
  | [] => rfl
  | x :: xs => by simp [charsLead, charsLead_refl xs]

theorem charsLead_append_right :
    ∀ (p a b : List Char), charsLead p a = true → charsLead p (a ++ b) = true
  | [], _, _, _ => rfl
  | _ :: _, [], _, h => by simp [charsLead] at h
  | x :: xs, y :: ys, b, h => by
      simp only [charsLead, Bool.and_eq_true, beq_iff_eq] at h
      simp only [List.cons_append, charsLead, Bool.and_eq_true, beq_iff_eq]
      exact ⟨h.1, charsLead_append_right xs ys b h.2⟩

theorem charsWithin_of_lead (n h : List Char) (hl : charsLead n h = true) :
    charsWithin n h = true := by
  cases h with
  | nil => simpa [charsWithin] using hl
  | cons c t => simp [charsWithin, hl]

theorem charsWithin_append_left :
    ∀ (a n rest : List Char), charsWithin n rest = true → charsWithin n (a ++ rest) = true
  | [], _, _, h => h
  | x :: xs, n, rest, h => by
      simp only [List.cons_append, charsWithin, Bool.or_eq_true]
      exact Or.inr (charsWithin_append_left xs n rest h)

theorem charsWithin_left (n b : List Char) : charsWithin n (n ++ b) = true :=
  charsWithin_of_lead n (n ++ b) (charsLead_append_right n n b (charsLead_refl n))

theorem charsLead_head {a b : Char} {as bs : List Char}
    (h : charsLead (a :: as) (b :: bs) = true) : a = b := by
  simp only [charsLead, Bool.and_eq_true, beq_iff_eq] at h
  exact h.1

theorem strLeads_first_char_ne {p q m₁ m₂ : String}
    (hp : strLeads p m₁ = true) (hq : strLeads q m₂ = true)
    (hne : p.data.head? ≠ q.data.head?)
    (hp0 : p.data ≠ []) (hq0 : q.data ≠ []) : m₁ ≠ m₂ := by
  intro heq
  subst heq
  unfold strLeads at hp hq
  cases hP : p.data with
  | nil => exact hp0 hP
  | cons a as =>
    cases hQ : q.data with
    | nil => exact hq0 hQ
    | cons c cs =>
      cases hM : m₁.data with
      | nil => rw [hP, hM] at hp; simp [charsLead] at hp
      | cons b bs =>
        rw [hP, hM] at hp
        rw [hQ, hM] at hq
        have h1 : a = b := charsLead_head hp
        have h2 : c = b := charsLead_head hq
        apply hne
        rw [hP, hQ, h1, h2]
        rfl

theorem charsWithin_self (n : List Char) : charsWithin n n = true :=
  charsWithin_of_lead n n (charsLead_refl n)

theorem strWithin_mid2 (a n b c : String) : strWithin n (a ++ n ++ b ++ c) = true := by
  unfold strWithin
  simp only [String.data_append, List.append_assoc]
  exact charsWithin_append_left a.data n.data _ (charsWithin_left n.data _)

theorem strWithin_end3 (a b c n : String) : strWithin n (a ++ b ++ c ++ n) = true := by
  unfold strWithin
  simp only [String.data_append, List.append_assoc]
  exact charsWithin_append_left a.data n.data _
    (charsWithin_append_left b.data n.data _
      (charsWithin_append_left c.data n.data _ (charsWithin_self n.data)))

theorem strLeads_append (p a b : String) (h : strLeads p a = true) :
    strLeads p (a ++ b) = true := by
  unfold strLeads at h ⊢
  rw [String.data_append]
  exact charsLead_append_right p.data a.data b.data h

/-! Branch characterizations of hostPerfCheck. -/

theorem hostPerfCheck_skip (env : PerfCheckEnv)
    (h : fsExists env.fs (sentinelPath env) = true) :
    hostPerfCheck env =
      { result := .ok (), fs := env.fs,
        logs := ["Performance check skipped: already passed"],
        decompressCalls := 0, prevalidateCalls := 0, prepareCalls := 0 } := by
  simp [hostPerfCheck, hostPerfCheckAt, h]

theorem hostPerfCheck_decompress_err (env : PerfCheckEnv)
    (h : fsExists env.fs (sentinelPath env) = false) {e : String}
    (hd : env.decompress env.wasmCode CODE_SIZE_LIMIT = .error e) :
    hostPerfCheck env =
      { result := .error (.other ("Failed to decompress test wasm code: " ++ e)),
        fs := env.fs, logs := ["Running the performance check..."],
        decompressCalls := 1, prevalidateCalls := 0, prepareCalls := 0 } := by
  simp [hostPerfCheck, hostPerfCheckAt, h, hd]

theorem hostPerfCheck_prevalidate_err (env : PerfCheckEnv)
    (h : fsExists env.fs (sentinelPath env) = false) {code : List Nat} {e : String}
    (hd : env.decompress env.wasmCode CODE_SIZE_LIMIT = .ok code)
    (hp : env.prevalidate code = .error e) :
    hostPerfCheck env =
      { result := .error
          (.other ("Failed to create runtime blob from the decompressed code: " ++ e)),
        fs := env.fs, logs := ["Running the performance check..."],
        decompressCalls := 1, prevalidateCalls := 1, prepareCalls := 0 } := by
  simp [hostPerfCheck, hostPerfCheckAt, h, hd, hp]

theorem hostPerfCheck_prepare_err (env : PerfCheckEnv)
    (h : fsExists env.fs (sentinelPath env) = false)
    {code blob : List Nat} {e : String}
    (hd : env.decompress env.wasmCode CODE_SIZE_LIMIT = .ok code)
    (hp : env.prevalidate code = .ok blob)
    (hq : env.prepare blob = .error e) :
    hostPerfCheck env =
      { result := .error (.other ("Failed to precompile test wasm code: " ++ e)),
        fs := env.fs, logs := ["Running the performance check..."],
        decompressCalls := 1, prevalidateCalls := 1, prepareCalls := 1 } := by
  simp [hostPerfCheck, hostPerfCheckAt, h, hd, hp, hq]

theorem hostPerfCheck_pass (env : PerfCheckEnv)
    (h : fsExists env.fs (sentinelPath env) = false)
    {code blob art : List Nat}
    (hd : env.decompress env.wasmCode CODE_SIZE_LIMIT = .ok code)
    (hp : env.prevalidate code = .ok blob)
    (hq : env.prepare blob = .ok art)
    (ht : env.elapsedMillis ≤ PERF_CHECK_TIME_LIMIT) :
    hostPerfCheck env =
      { result := .ok (),
        fs := if env.sentinelWriteSucceeds then
                fsTouch env.fs (sentinelPath env)
              else env.fs,
        logs := ["Running the performance check...",
                 "Performance check passed, elapsed: " ++
                   formatDuration env.elapsedMillis],
        decompressCalls := 1, prevalidateCalls := 1, prepareCalls := 1 } := by
  simp [hostPerfCheck, hostPerfCheckAt, h, hd, hp, hq, ht]

theorem hostPerfCheck_slow (env : PerfCheckEnv)
    (h : fsExists env.fs (sentinelPath env) = false)
    {code blob art : List Nat}
    (hd : env.decompress env.wasmCode CODE_SIZE_LIMIT = .ok code)
    (hp : env.prevalidate code = .ok blob)
    (hq : env.prepare blob = .ok art)
    (ht : PERF_CHECK_TIME_LIMIT < env.elapsedMillis) :
    hostPerfCheck env =
      { result := .error (.other
          ("Performance check not passed: exceeded the " ++
            formatDuration PERF_CHECK_TIME_LIMIT ++
            " time limit, elapsed: " ++ formatDuration env.elapsedMillis)),
        fs := env.fs,
        logs := ["Running the performance check..."],
        decompressCalls := 1, prevalidateCalls := 1, prepareCalls := 1 } := by
  simp [hostPerfCheck, hostPerfCheckAt, h, hd, hp, hq, Nat.not_le.mpr ht]

theorem stages_of_ok (env : PerfCheckEnv) (hok : stagesOk env = true) :
    ∃ code blob art, env.decompress env.wasmCode CODE_SIZE_LIMIT = .ok code ∧
      env.prevalidate code = .ok blob ∧ env.prepare blob = .ok art := by
  cases hd : env.decompress env.wasmCode CODE_SIZE_LIMIT with
  | error e => simp [stagesOk, hd] at hok
  | ok code =>
    cases hp : env.prevalidate code with
    | error e => simp [stagesOk, hd, hp] at hok
    | ok blob =>
      cases hq : env.prepare blob with
      | error e => simp [stagesOk, hd, hp, hq] at hok
      | ok art => exact ⟨code, blob, art, rfl, hp, hq⟩

theorem fsExists_touch (fs : FileSystem) (p : String) :
    fsExists (fsTouch fs p) p = true := by
  simp [fsExists, fsTouch, fsLookup]

theorem fsLookup_touch (fs : FileSystem) (p : String) :
    fsLookup (fsTouch fs p) p = some "" := by
  simp [fsTouch, fsLookup]

/-- C1: whenever the sentinel file already exists at the fixed path beside
the executable, host_perf_check returns Ok, invokes none of the
Decompressor, Prevalidator and Preparer stages, and leaves the filesystem
unchanged. -/
theorem sentinel_present_short_circuits (env : PerfCheckEnv)
    (h : fsExists env.fs (sentinelPath env) = true) :
    (hostPerfCheck env).result = .ok () ∧
    (hostPerfCheck env).decompressCalls = 0 ∧
    (hostPerfCheck env).prevalidateCalls = 0 ∧
    (hostPerfCheck env).prepareCalls = 0 ∧
    (hostPerfCheck env).fs = env.fs := by
  rw [hostPerfCheck_skip env h]
  exact ⟨rfl, rfl, rfl, rfl, rfl⟩

theorem sentinel_present_short_circuits_witness :
    fsExists envPassed.fs (sentinelPath envPassed) = true ∧
    ((hostPerfCheck envPassed).result = .ok () ∧
     (hostPerfCheck envPassed).decompressCalls = 0 ∧
     (hostPerfCheck envPassed).prevalidateCalls = 0 ∧
     (hostPerfCheck envPassed).prepareCalls = 0 ∧
     (hostPerfCheck envPassed).fs = envPassed.fs) :=
  ⟨by decide, sentinel_present_short_circuits envPassed (by decide)⟩

/-- C2: when the sentinel is absent, it appears after host_perf_check only
if all three pipeline stages succeeded and the elapsed time was within the
20 second limit (in which case the result is Ok); on any stage failure or
on exceeding the time limit the function returns an error and the
filesystem is unchanged, so the sentinel is not created. -/
theorem sentinel_created_only_on_in_time_success (env : PerfCheckEnv)
    (h : fsExists env.fs (sentinelPath env) = false) :
    (fsExists (hostPerfCheck env).fs (sentinelPath env) = true →
      stagesOk env = true ∧ env.elapsedMillis ≤ PERF_CHECK_TIME_LIMIT ∧
      (hostPerfCheck env).result = .ok ()) ∧
    ((stagesOk env = false ∨ PERF_CHECK_TIME_LIMIT < env.elapsedMillis) →
      (∃ msg, (hostPerfCheck env).result = .error (.other msg)) ∧
      (hostPerfCheck env).fs = env.fs) := by
  cases hd : env.decompress env.wasmCode CODE_SIZE_LIMIT with
  | error e =>
    simp only [hostPerfCheck_decompress_err env h hd]
    constructor
    · intro hex
      rw [h] at hex
      exact Bool.noConfusion hex
    · intro _
      exact ⟨⟨_, rfl⟩, trivial⟩
  | ok code =>
    cases hp : env.prevalidate code with
    | error e =>
      simp only [hostPerfCheck_prevalidate_err env h hd hp]
      constructor
      · intro hex
        rw [h] at hex
        exact Bool.noConfusion hex
      · intro _
        exact ⟨⟨_, rfl⟩, trivial⟩
    | ok blob =>
      cases hq : env.prepare blob with
      | error e =>
        simp only [hostPerfCheck_prepare_err env h hd hp hq]
        constructor
        · intro hex
          rw [h] at hex
          exact Bool.noConfusion hex
        · intro _
          exact ⟨⟨_, rfl⟩, trivial⟩
      | ok art =>
        have hsOk : stagesOk env = true := by simp [stagesOk, hd, hp, hq]
        by_cases ht : env.elapsedMillis ≤ PERF_CHECK_TIME_LIMIT
        · simp only [hostPerfCheck_pass env h hd hp hq ht]
          constructor
          · intro _
            exact ⟨hsOk, ht, trivial⟩
          · rintro (hbad | hbad)
            · rw [hsOk] at hbad
              exact Bool.noConfusion hbad
            · exact absurd ht (Nat.not_le.mpr hbad)
        · have ht' : PERF_CHECK_TIME_LIMIT < env.elapsedMillis := Nat.not_le.mp ht
          simp only [hostPerfCheck_slow env h hd hp hq ht']
          constructor
          · intro hex
            rw [h] at hex
            exact Bool.noConfusion hex
          · intro _
            exact ⟨⟨_, rfl⟩, trivial⟩

theorem sentinel_created_only_on_in_time_success_witness :
    fsExists envFail.fs (sentinelPath envFail) = false ∧
    ((∃ msg, (hostPerfCheck envFail).result = .error (.other msg)) ∧
      (hostPerfCheck envFail).fs = envFail.fs) :=
  ⟨rfl, (sentinel_created_only_on_in_time_success envFail rfl).2 (Or.inl rfl)⟩

/-- C3: when the pipeline succeeds but the measured elapsed time strictly
exceeds the 20 second limit, host_perf_check returns an error whose
message contains both the rendered measured time and the rendered limit. -/
theorem timing_error_reports_measured_and_limit (env : PerfCheckEnv)
    (h : fsExists env.fs (sentinelPath env) = false)
    (hok : stagesOk env = true)
    (hslow : PERF_CHECK_TIME_LIMIT < env.elapsedMillis) :
    ∃ msg, (hostPerfCheck env).result = .error (.other msg) ∧
      strWithin (formatDuration env.elapsedMillis) msg = true ∧
      strWithin (formatDuration PERF_CHECK_TIME_LIMIT) msg = true := by
  obtain ⟨code, blob, art, hd, hp, hq⟩ := stages_of_ok env hok
  rw [hostPerfCheck_slow env h hd hp hq hslow]
  exact ⟨_, rfl, strWithin_end3 _ _ _ _, strWithin_mid2 _ _ _ _⟩

theorem timing_error_reports_measured_and_limit_witness :
    fsExists env25.fs (sentinelPath env25) = false ∧
    stagesOk env25 = true ∧
    PERF_CHECK_TIME_LIMIT < env25.elapsedMillis ∧
    (∃ msg, (hostPerfCheck env25).result = .error (.other msg) ∧
      strWithin (formatDuration env25.elapsedMillis) msg = true ∧
      strWithin (formatDuration PERF_CHECK_TIME_LIMIT) msg = true) :=
  ⟨rfl, rfl, by decide,
    timing_error_reports_measured_and_limit env25 rfl rfl (by decide)⟩

/-- C10: with the sentinel absent and a successful pipeline, a measured
elapsed time exactly equal to the 20 second limit passes the check: the
result is Ok and, if the sentinel write succeeds, the sentinel exists
afterwards; the check returns an error precisely when the elapsed time is
strictly greater than the limit. -/
theorem elapsed_equal_to_limit_passes (env : PerfCheckEnv)
    (h : fsExists env.fs (sentinelPath env) = false)
    (hok : stagesOk env = true) :
    (env.elapsedMillis = PERF_CHECK_TIME_LIMIT →
      (hostPerfCheck env).result = .ok () ∧
      (env.sentinelWriteSucceeds = true →
        fsExists (hostPerfCheck env).fs (sentinelPath env) = true)) ∧
    ((∃ msg, (hostPerfCheck env).result = .error msg) ↔
      PERF_CHECK_TIME_LIMIT < env.elapsedMillis) := by
  obtain ⟨code, blob, art, hd, hp, hq⟩ := stages_of_ok env hok
  constructor
  · intro heq
    have ht : env.elapsedMillis ≤ PERF_CHECK_TIME_LIMIT := le_of_eq heq
    simp only [hostPerfCheck_pass env h hd hp hq ht]
    refine ⟨trivial, fun hw => ?_⟩
    simp [hw, fsExists_touch]
  · constructor
    · by_cases ht : env.elapsedMillis ≤ PERF_CHECK_TIME_LIMIT
      · rintro ⟨msg, hmsg⟩
        rw [hostPerfCheck_pass env h hd hp hq ht] at hmsg
        exact absurd hmsg (by simp)
      · intro _
        exact Nat.not_le.mp ht
    · intro ht
      rw [hostPerfCheck_slow env h hd hp hq ht]
      exact ⟨_, rfl⟩

/-- C6: every pipeline stage failure aborts host_perf_check with an error
message that identifies the failed stage by a stage specific leading
phrase and starts with "Failed", while an in time failure produces a
message starting with "Performance check not passed"; no message of the
first kind equals a message of the second kind, so a stage failure is
never reported as a timing failure and vice versa. -/
theorem stage_failure_distinct_from_timing (env : PerfCheckEnv)
    (h : fsExists env.fs (sentinelPath env) = false) :
    (∀ e, env.decompress env.wasmCode CODE_SIZE_LIMIT = .error e →
      ∃ msg, (hostPerfCheck env).result = .error (.other msg) ∧
        strLeads "Failed" msg = true ∧
        strLeads "Failed to decompress test wasm code" msg = true) ∧
    (∀ code e, env.decompress env.wasmCode CODE_SIZE_LIMIT = .ok code →
      env.prevalidate code = .error e →
      ∃ msg, (hostPerfCheck env).result = .error (.other msg) ∧
        strLeads "Failed" msg = true ∧
        strLeads "Failed to create runtime blob" msg = true) ∧
    (∀ code blob e, env.decompress env.wasmCode CODE_SIZE_LIMIT = .ok code →
      env.prevalidate code = .ok blob → env.prepare blob = .error e →
      ∃ msg, (hostPerfCheck env).result = .error (.other msg) ∧
        strLeads "Failed" msg = true ∧
        strLeads "Failed to precompile test wasm code" msg = true) ∧
    (stagesOk env = true → PERF_CHECK_TIME_LIMIT < env.elapsedMillis →
      ∃ msg, (hostPerfCheck env).result = .error (.other msg) ∧
        strLeads "Performance check not passed" msg = true) ∧
    (∀ m₁ m₂, strLeads "Failed" m₁ = true →
      strLeads "Performance check not passed" m₂ = true → m₁ ≠ m₂) := by
  refine ⟨?_, ?_, ?_, ?_, ?_⟩
  · intro e hd
    rw [hostPerfCheck_decompress_err env h hd]
    exact ⟨_, rfl, strLeads_append _ _ _ (by rfl), strLeads_append _ _ _ (by rfl)⟩
  · intro code e hd hp
    rw [hostPerfCheck_prevalidate_err env h hd hp]
    exact ⟨_, rfl, strLeads_append _ _ _ (by rfl), strLeads_append _ _ _ (by rfl)⟩
  · intro code blob e hd hp hq
    rw [hostPerfCheck_prepare_err env h hd hp hq]
    exact ⟨_, rfl, strLeads_append _ _ _ (by rfl), strLeads_append _ _ _ (by rfl)⟩
  · intro hok hslow
    obtain ⟨code, blob, art, hd, hp, hq⟩ := stages_of_ok env hok
    rw [hostPerfCheck_slow env h hd hp hq hslow]
    exact ⟨_, rfl,
      strLeads_append _ _ _ (strLeads_append _ _ _ (strLeads_append _ _ _ (by rfl)))⟩
  · intro m₁ m₂ h1 h2
    exact strLeads_first_char_ne h1 h2 (by decide) (by decide) (by decide)

theorem stage_failure_distinct_from_timing_witness :
    fsExists envFail.fs (sentinelPath envFail) = false ∧
    envFail.decompress envFail.wasmCode CODE_SIZE_LIMIT = .error "corrupt stream" ∧
    (∃ msg, (hostPerfCheck envFail).result = .error (.other msg) ∧
      strLeads "Failed" msg = true ∧
      strLeads "Failed to decompress test wasm code" msg = true) :=
  ⟨rfl, rfl, (stage_failure_distinct_from_timing envFail rfl).1 "corrupt stream" rfl⟩

/-- C7 counterexample: a concrete in time successful run whose sentinel
write fails: host_perf_check returns Ok and the sentinel is absent
afterwards, yet the emitted log lines are exactly the two listed ones and
coincide with the log output of the identical run whose sentinel write
succeeds — so the write failure is not logged anywhere. -/
theorem sentinel_write_failure_unlogged_cex :
    (hostPerfCheck envWF).result = .ok () ∧
    fsExists (hostPerfCheck envWF).fs (sentinelPath envWF) = false ∧
    (hostPerfCheck envWF).logs =
      ["Running the performance check...",
       "Performance check passed, elapsed: 5s"] ∧
    (hostPerfCheck envWF).logs = (hostPerfCheck envBase).logs :=
  ⟨rfl, rfl, rfl, rfl⟩

/-- C7 (amended): persisting the sentinel after an in time successful run
is best effort and a write failure is silently ignored rather than
logged: host_perf_check still returns Ok, the filesystem is unchanged,
and the log output is identical to that of the same run with a
succeeding write. -/
theorem sentinel_write_failure_nonfatal (env : PerfCheckEnv)
    (h : fsExists env.fs (sentinelPath env) = false)
    (hok : stagesOk env = true)
    (ht : env.elapsedMillis ≤ PERF_CHECK_TIME_LIMIT)
    (hw : env.sentinelWriteSucceeds = false) :
    (hostPerfCheck env).result = .ok () ∧
    (hostPerfCheck env).fs = env.fs ∧
    (hostPerfCheck env).logs =
      (hostPerfCheck { env with sentinelWriteSucceeds := true }).logs := by
  obtain ⟨code, blob, art, hd, hp, hq⟩ := stages_of_ok env hok
  rw [hostPerfCheck_pass env h hd hp hq ht,
      hostPerfCheck_pass { env with sentinelWriteSucceeds := true } h hd hp hq ht]
  refine ⟨rfl, ?_, rfl⟩
  simp [hw]

theorem sentinel_write_failure_nonfatal_witness :
    fsExists envWF.fs (sentinelPath envWF) = false ∧
    stagesOk envWF = true ∧
    envWF.elapsedMillis ≤ PERF_CHECK_TIME_LIMIT ∧
    envWF.sentinelWriteSucceeds = false ∧
    ((hostPerfCheck envWF).result = .ok () ∧
     (hostPerfCheck envWF).fs = envWF.fs ∧
     (hostPerfCheck envWF).logs =
       (hostPerfCheck { envWF with sentinelWriteSucceeds := true }).logs) :=
  ⟨rfl, rfl, by decide, rfl,
    sentinel_write_failure_nonfatal envWF rfl rfl (by decide) rfl⟩

/-- The leading slash of an absolute path survives appending. -/
theorem isAbsolutePath_append (a b : String) (h : isAbsolutePath a = true) :
    isAbsolutePath (a ++ b) = true := by
  unfold isAbsolutePath at h ⊢
  rw [String.data_append]
  cases ha : a.data with
  | nil => rw [ha] at h; exact Bool.noConfusion h
  | cons c t =>
    rw [ha] at h
    exact h

/-- The body of host_perf_check after the path computation never reads the
current working directory. -/
theorem hostPerfCheckAt_cwd_irrelevant (p : String) (env : PerfCheckEnv) (c : String) :
    hostPerfCheckAt p { env with cwd := c } = hostPerfCheckAt p env := rfl

/-- C9 counterexample: when current_exe fails, the consulted sentinel path
degrades to the cwd relative .perf_check_passed and the gate becomes
dependent on the current working directory: under one cwd the sentinel is
found and the pipeline is skipped, under another cwd the same environment
runs the pipeline — so the path is not independent of the current working
directory as the claim states. -/
theorem sentinel_path_depends_on_cwd_cex :
    envNoExe.currentExeDir = none ∧
    sentinelPath envNoExe = "/home/operator/.perf_check_passed" ∧
    sentinelPath { envNoExe with cwd := "/tmp" } = "/tmp/.perf_check_passed" ∧
    (hostPerfCheck envNoExe).result = .ok () ∧
    (hostPerfCheck envNoExe).decompressCalls = 0 ∧
    (hostPerfCheck { envNoExe with cwd := "/tmp" }).decompressCalls = 1 ∧
    hostPerfCheck { envNoExe with cwd := "/tmp" } ≠ hostPerfCheck envNoExe :=
  ⟨rfl, rfl, rfl, rfl, rfl, rfl,
    fun heq => absurd (congrArg PerfCheckOutcome.decompressCalls heq) (by decide)⟩

/-- C9 (amended): the sentinel contract of the gate: when current_exe
succeeds with an absolute executable directory the consulted path is
fixed beside the executable and the outcome is independent of the
current working directory; when current_exe fails the consulted path
degrades to .perf_check_passed under the current working directory. In
all cases the decision, log output and stage invocation counts depend on
the filesystem only through the existence of the file at the consulted
path, never through its content, and whenever the gate creates the
sentinel it is a zero byte file. -/
theorem sentinel_existence_contract_with_exe_fallback (env : PerfCheckEnv) :
    (∀ d c, env.currentExeDir = some d → isAbsolutePath d = true →
      hostPerfCheck { env with cwd := c } = hostPerfCheck env) ∧
    (env.currentExeDir = none →
      sentinelPath env = env.cwd ++ "/" ++ CHECK_PASSED_FILE_NAME) ∧
    (∀ fs₁ fs₂ : FileSystem,
      fsExists fs₁ (sentinelPath env) =
        fsExists fs₂ (sentinelPath env) →
      (hostPerfCheck { env with fs := fs₁ }).result =
        (hostPerfCheck { env with fs := fs₂ }).result ∧
      (hostPerfCheck { env with fs := fs₁ }).logs =
        (hostPerfCheck { env with fs := fs₂ }).logs ∧
      (hostPerfCheck { env with fs := fs₁ }).decompressCalls =
        (hostPerfCheck { env with fs := fs₂ }).decompressCalls ∧
      (hostPerfCheck { env with fs := fs₁ }).prevalidateCalls =
        (hostPerfCheck { env with fs := fs₂ }).prevalidateCalls ∧
      (hostPerfCheck { env with fs := fs₁ }).prepareCalls =
        (hostPerfCheck { env with fs := fs₂ }).prepareCalls) ∧
    (fsExists env.fs (sentinelPath env) = false →
      fsExists (hostPerfCheck env).fs (sentinelPath env) = true →
      fsLookup (hostPerfCheck env).fs (sentinelPath env) = some "") := by
  refine ⟨?_, ?_, fun fs₁ fs₂ hfs => ?_, fun h0 hex => ?_⟩
  · intro d c hd habs
    have habs2 : isAbsolutePath (checkPassedPath env.currentExeDir) = true := by
      rw [hd]
      exact isAbsolutePath_append _ _ (isAbsolutePath_append d "/" habs)
    have hpath : sentinelPath { env with cwd := c } = sentinelPath env := by
      simp [sentinelPath, resolvePath, habs2]
    calc hostPerfCheck { env with cwd := c }
        = hostPerfCheckAt (sentinelPath { env with cwd := c }) { env with cwd := c } := rfl
      _ = hostPerfCheckAt (sentinelPath env) { env with cwd := c } := by rw [hpath]
      _ = hostPerfCheckAt (sentinelPath env) env := hostPerfCheckAt_cwd_irrelevant _ env c
  · intro h0
    simp [sentinelPath, resolvePath, checkPassedPath, h0,
      show isAbsolutePath CHECK_PASSED_FILE_NAME = false from rfl]
  · cases hb : fsExists fs₂ (sentinelPath env) with
    | true =>
      have h1 : fsExists fs₁ (sentinelPath env) = true := by rw [hfs, hb]
      rw [hostPerfCheck_skip { env with fs := fs₁ } h1,
          hostPerfCheck_skip { env with fs := fs₂ } hb]
      exact ⟨rfl, rfl, rfl, rfl, rfl⟩
    | false =>
      have h1 : fsExists fs₁ (sentinelPath env) = false := by rw [hfs, hb]
      cases hd : env.decompress env.wasmCode CODE_SIZE_LIMIT with
      | error e =>
        rw [hostPerfCheck_decompress_err { env with fs := fs₁ } h1 hd,
            hostPerfCheck_decompress_err { env with fs := fs₂ } hb hd]
        exact ⟨rfl, rfl, rfl, rfl, rfl⟩
      | ok code =>
        cases hp : env.prevalidate code with
        | error e =>
          rw [hostPerfCheck_prevalidate_err { env with fs := fs₁ } h1 hd hp,
              hostPerfCheck_prevalidate_err { env with fs := fs₂ } hb hd hp]
          exact ⟨rfl, rfl, rfl, rfl, rfl⟩
        | ok blob =>
          cases hq : env.prepare blob with
          | error e =>
            rw [hostPerfCheck_prepare_err { env with fs := fs₁ } h1 hd hp hq,
                hostPerfCheck_prepare_err { env with fs := fs₂ } hb hd hp hq]
            exact ⟨rfl, rfl, rfl, rfl, rfl⟩
          | ok art =>
            by_cases ht : env.elapsedMillis ≤ PERF_CHECK_TIME_LIMIT
            · rw [hostPerfCheck_pass { env with fs := fs₁ } h1 hd hp hq ht,
                  hostPerfCheck_pass { env with fs := fs₂ } hb hd hp hq ht]
              exact ⟨rfl, rfl, rfl, rfl, rfl⟩
            · have ht' : PERF_CHECK_TIME_LIMIT < env.elapsedMillis := Nat.not_le.mp ht
              rw [hostPerfCheck_slow { env with fs := fs₁ } h1 hd hp hq ht',
                  hostPerfCheck_slow { env with fs := fs₂ } hb hd hp hq ht']
              exact ⟨rfl, rfl, rfl, rfl, rfl⟩
  · cases hd : env.decompress env.wasmCode CODE_SIZE_LIMIT with
    | error e =>
      simp only [hostPerfCheck_decompress_err env h0 hd] at hex
      rw [h0] at hex
      exact Bool.noConfusion hex
    | ok code =>
      cases hp : env.prevalidate code with
      | error e =>
        simp only [hostPerfCheck_prevalidate_err env h0 hd hp] at hex
        rw [h0] at hex
        exact Bool.noConfusion hex
      | ok blob =>
        cases hq : env.prepare blob with
        | error e =>
          simp only [hostPerfCheck_prepare_err env h0 hd hp hq] at hex
          rw [h0] at hex
          exact Bool.noConfusion hex
        | ok art =>
          by_cases ht : env.elapsedMillis ≤ PERF_CHECK_TIME_LIMIT
          · simp only [hostPerfCheck_pass env h0 hd hp hq ht] at hex ⊢
            cases hw : env.sentinelWriteSucceeds with
            | false =>
              rw [hw] at hex
              simp only [if_neg Bool.false_ne_true] at hex
              rw [h0] at hex
              exact Bool.noConfusion hex
            | true =>
              simp [hw, fsLookup_touch]
          · simp only [hostPerfCheck_slow env h0 hd hp hq (Nat.not_le.mp ht)] at hex
            rw [h0] at hex
            exact Bool.noConfusion hex

theorem sentinel_existence_contract_with_exe_fallback_witness :
    (envBase.currentExeDir = some "/opt/polkadot" ∧
     isAbsolutePath "/opt/polkadot" = true ∧
     hostPerfCheck { envBase with cwd := "/elsewhere" } = hostPerfCheck envBase) ∧
    (envNoExe.currentExeDir = none ∧
     sentinelPath envNoExe = envNoExe.cwd ++ "/" ++ CHECK_PASSED_FILE_NAME) ∧
    (fsExists fsC1 (sentinelPath envBase) = fsExists fsC2 (sentinelPath envBase) ∧
     ((hostPerfCheck { envBase with fs := fsC1 }).result =
        (hostPerfCheck { envBase with fs := fsC2 }).result ∧
      (hostPerfCheck { envBase with fs := fsC1 }).logs =
        (hostPerfCheck { envBase with fs := fsC2 }).logs ∧
      (hostPerfCheck { envBase with fs := fsC1 }).decompressCalls =
        (hostPerfCheck { envBase with fs := fsC2 }).decompressCalls ∧
      (hostPerfCheck { envBase with fs := fsC1 }).prevalidateCalls =
        (hostPerfCheck { envBase with fs := fsC2 }).prevalidateCalls ∧
      (hostPerfCheck { envBase with fs := fsC1 }).prepareCalls =
        (hostPerfCheck { envBase with fs := fsC2 }).prepareCalls)) ∧
    (fsExists envBase.fs (sentinelPath envBase) = false ∧
     fsExists (hostPerfCheck envBase).fs (sentinelPath envBase) = true ∧
     fsLookup (hostPerfCheck envBase).fs (sentinelPath envBase) = some "") :=
  ⟨⟨rfl, rfl,
    (sentinel_existence_contract_with_exe_fallback envBase).1
      "/opt/polkadot" "/elsewhere" rfl rfl⟩,
   ⟨rfl, (sentinel_existence_contract_with_exe_fallback envNoExe).2.1 rfl⟩,
   ⟨by decide,
    (sentinel_existence_contract_with_exe_fallback envBase).2.2.1 fsC1 fsC2 (by decide)⟩,
   rfl, rfl,
   (sentinel_existence_contract_with_exe_fallback envBase).2.2.2 rfl rfl⟩

theorem elapsed_equal_to_limit_passes_witness :
    fsExists env20.fs (sentinelPath env20) = false ∧
    stagesOk env20 = true ∧
    env20.elapsedMillis = PERF_CHECK_TIME_LIMIT ∧
    ((hostPerfCheck env20).result = .ok () ∧
      (env20.sentinelWriteSucceeds = true →
        fsExists (hostPerfCheck env20).fs (sentinelPath env20) = true)) :=
  ⟨rfl, rfl, rfl, (elapsed_equal_to_limit_passes env20 rfl rfl).1 rfl⟩

/-- C4 counterexample: on the normal node startup path (no subcommand) run
builds and starts the node service and succeeds without the host
performance gate ever running, even in an environment in which
host_perf_check would fail. -/
theorem normal_startup_builds_service_without_gate_cex :
    run none runEnvSlowHost = (.ok (), [Event.nodeServiceBuilt]) ∧
    Event.hostPerfGateRun ∉ (run none runEnvSlowHost).2 ∧
    Event.nodeServiceBuilt ∈ (run none runEnvSlowHost).2 ∧
    (∃ msg, (hostPerfCheck runEnvSlowHost.perf).result = .error msg) :=
  ⟨rfl, by decide, by decide, ⟨_, rfl⟩⟩

/-- C4 (amended): host_perf_check is not invoked on the normal node
startup path: with no subcommand, run builds and starts the node service
and the gate never runs. The gate runs only under the dedicated
HostPerfCheck subcommand, whose branch completes host_perf_check
synchronously, returns its result, and does not build the node
service. -/
theorem gate_runs_only_under_dedicated_subcommand (env : RunEnv) :
    (run none env).2 = [Event.nodeServiceBuilt] ∧
    Event.hostPerfGateRun ∉ (run none env).2 ∧
    (run (some .hostPerfCheck) env).1 = (hostPerfCheck env.perf).result ∧
    (run (some .hostPerfCheck) env).2 = [Event.loggerInit, Event.hostPerfGateRun] ∧
    Event.nodeServiceBuilt ∉ (run (some .hostPerfCheck) env).2 := by
  refine ⟨rfl, by simp [run], rfl, rfl, by simp [run]⟩

/-- C5: on the android platform, either worker subcommand returns the
platform refusal error after only initializing the logger: the worker
entrypoint (the only component that binds the endpoint) is never invoked,
and the returned error is the unsupported platform message. -/
theorem worker_refused_on_android (sp : String) (env : RunEnv)
    (h : env.isAndroid = true) :
    run (some (.pvfPrepareWorker sp)) env =
      (.error (.substrateCli (workerRefusalMessage .prepare)), [Event.loggerInit]) ∧
    run (some (.pvfExecuteWorker sp)) env =
      (.error (.substrateCli (workerRefusalMessage .execute)), [Event.loggerInit]) ∧
    (∀ m q, Event.workerEntrypoint m q ∉ (run (some (.pvfPrepareWorker sp)) env).2) ∧
    (∀ m q, Event.workerEntrypoint m q ∉ (run (some (.pvfExecuteWorker sp)) env).2) ∧
    strWithin "not supported under this platform" (workerRefusalMessage .prepare) = true ∧
    strWithin "not supported under this platform" (workerRefusalMessage .execute) = true := by
  refine ⟨by simp [run, h], by simp [run, h], ?_, ?_, by rfl, by rfl⟩
  · intro m q
    simp [run, h]
  · intro m q
    simp [run, h]

theorem worker_refused_on_android_witness :
    runEnvAndroid.isAndroid = true ∧
    (run (some (.pvfPrepareWorker "/tmp/pvf.sock")) runEnvAndroid =
      (.error (.substrateCli (workerRefusalMessage .prepare)), [Event.loggerInit]) ∧
     run (some (.pvfExecuteWorker "/tmp/pvf.sock")) runEnvAndroid =
      (.error (.substrateCli (workerRefusalMessage .execute)), [Event.loggerInit]) ∧
     (∀ m q, Event.workerEntrypoint m q ∉
        (run (some (.pvfPrepareWorker "/tmp/pvf.sock")) runEnvAndroid).2) ∧
     (∀ m q, Event.workerEntrypoint m q ∉
        (run (some (.pvfExecuteWorker "/tmp/pvf.sock")) runEnvAndroid).2) ∧
     strWithin "not supported under this platform" (workerRefusalMessage .prepare) = true ∧
     strWithin "not supported under this platform" (workerRefusalMessage .execute) = true) :=
  ⟨rfl, worker_refused_on_android "/tmp/pvf.sock" runEnvAndroid rfl⟩

/-- C8 counterexample: the refusal errors of both worker subcommands on
android are fixed messages that do not contain the platform name android
in any capitalization; the refusal therefore does not name the
platform. -/
theorem worker_refusal_does_not_name_platform_cex :
    (run (some (.pvfPrepareWorker "/tmp/pvf.sock")) runEnvAndroid).1 =
      .error (.substrateCli
        "PVF preparation workers are not supported under this platform") ∧
    strWithin "android"
      "PVF preparation workers are not supported under this platform" = false ∧
    strWithin "Android"
      "PVF preparation workers are not supported under this platform" = false ∧
    (run (some (.pvfExecuteWorker "/tmp/pvf.sock")) runEnvAndroid).1 =
      .error (.substrateCli
        "PVF execution workers are not supported under this platform") ∧
    strWithin "android"
      "PVF execution workers are not supported under this platform" = false ∧
    strWithin "Android"
      "PVF execution workers are not supported under this platform" = false :=
  ⟨rfl, rfl, rfl, rfl, rfl, rfl⟩

/-- C8 (amended): the worker refusal on the unsupported platform names the
refused mode — the prepare message contains "preparation", the execute
message contains "execution", and the two messages differ — and it refers
to the platform only as "this platform", without naming android. -/
theorem worker_refusal_names_mode (sp : String) (env : RunEnv)
    (h : env.isAndroid = true) :
    ∃ mp me,
      (run (some (.pvfPrepareWorker sp)) env).1 = .error (.substrateCli mp) ∧
      (run (some (.pvfExecuteWorker sp)) env).1 = .error (.substrateCli me) ∧
      strWithin "preparation" mp = true ∧
      strWithin "execution" me = true ∧
      mp ≠ me ∧
      strWithin "this platform" mp = true ∧
      strWithin "this platform" me = true ∧
      strWithin "android" mp = false ∧
      strWithin "Android" mp = false ∧
      strWithin "android" me = false ∧
      strWithin "Android" me = false := by
  refine ⟨workerRefusalMessage .prepare, workerRefusalMessage .execute,
    by simp [run, h], by simp [run, h],
    by rfl, by rfl, by decide, by rfl, by rfl, by rfl, by rfl, by rfl, by rfl⟩

theorem worker_refusal_names_mode_witness :
    runEnvAndroid.isAndroid = true ∧
    (∃ mp me,
      (run (some (.pvfPrepareWorker "/tmp/pvf.sock")) runEnvAndroid).1 =
        .error (.substrateCli mp) ∧
      (run (some (.pvfExecuteWorker "/tmp/pvf.sock")) runEnvAndroid).1 =
        .error (.substrateCli me) ∧
      strWithin "preparation" mp = true ∧
      strWithin "execution" me = true ∧
      mp ≠ me ∧
      strWithin "this platform" mp = true ∧
      strWithin "this platform" me = true ∧
      strWithin "android" mp = false ∧
      strWithin "Android" mp = false ∧
      strWithin "android" me = false ∧
      strWithin "Android" me = false) :=
  ⟨rfl, worker_refusal_names_mode "/tmp/pvf.sock" runEnvAndroid rfl⟩

end PolkaFork
